import Mathlib

/-!
Verification of the solar-forecast datasource core (`src/datasource_proxy.ts`)
against its natural-language specification.

The TypeScript source is shallowly embedded below.  JavaScript objects that
hold metric data are modelled by the inductive `JsVal`; JS `Map`s keyed by
strings are association lists; the host functions `new Date(s).getTime()`
(whose result may be NaN) are abstracted as a parameter
`parse : String → Option Int` (`none` models NaN), and epoch instants are
`Int` milliseconds.  Each definition names the source function it embeds.
-/

namespace SolarProxy

/-- A JavaScript value as it occurs in the data path of the plugin: a number,
or an object mapping string keys to values (used both for the canonical
result, metric name → series, and for a series, timestamp string → number). -/
inductive JsVal where
  | num : Int → JsVal
  | obj : List (String × JsVal) → JsVal

/-- JS property access `o[k]`: `none` models `undefined`.  Accessing a
property of a number yields `undefined` for the keys used here. -/
def objGet : JsVal → String → Option JsVal
  | .obj m, k => m.lookup k
  | .num _, _ => none

/-- JS truthiness for the values of `JsVal`: the number 0 is falsy; every
object (even an empty one) is truthy. -/
def jsTruthy : JsVal → Bool
  | .num n => n != 0
  | .obj _ => true

/-- Embeds `const selectedData = allData[metric] || allData;`
(formatAsTimeSeries, src/datasource_proxy.ts line 152): a missing (or falsy)
metric entry falls back to the whole canonical result. -/
def selectData (allData : JsVal) (metric : String) : JsVal :=
  match objGet allData metric with
  | some v => if jsTruthy v then v else allData
  | none => allData

/-- JS `Object.entries(o)`; entries of a non-object are empty. -/
def entriesOf : JsVal → List (String × JsVal)
  | .obj m => m
  | .num _ => []

/-- Embeds `parseTimestamp` (src/datasource_proxy.ts lines 249–263):
`new Date(timestamp).getTime()`, returning the sentinel 0 when the parse
fails (the NaN case of the host parser, modelled by `parse s = none`). -/
def parseTimestamp (parse : String → Option Int) (s : String) : Int :=
  match parse s with
  | some t => t
  | none => 0

/-- Embeds the `isNaN(timeValue)` test in `formatAsTimeSeries`
(line 211).  Its argument is the result of `parseTimestamp`, which is a
genuine (non-NaN) number by construction — the NaN case was already mapped
to the sentinel 0 — so the test is constantly false. -/
def jsIsNaN (_t : Int) : Bool := false

/-- Embeds the `switch` of `getTargetDateFromPeriod`
(src/datasource_proxy.ts lines 707–739): the day offset added to today,
with every unknown period defaulting to today. -/
def periodOffset : String → Nat
  | "today" => 0
  | "tomorrow" => 1
  | "day+2" => 2
  | "day+3" => 3
  | "day+4" => 4
  | "day+5" => 5
  | "day+6" => 6
  | _ => 0

/-- Embeds the `timeFilter` closure of `formatAsTimeSeries`
(lines 185–202).  `dayStart n` / `dayEnd n` abstract the host computation
`setHours(0,0,0,0)` / `setHours(23,59,59,999)` on the local calendar day
today + `n`: the epoch-ms bounds of that local wall-clock day. -/
def timeFilterB (parse : String → Option Int) (dayStart dayEnd : Nat → Int)
    (period : String) (ts : String) : Bool :=
  if period == "all" then true
  else
    let t := parseTimestamp parse ts
    dayStart (periodOffset period) ≤ t && t ≤ dayEnd (periodOffset period)

/-- Embeds the final `.forEach` of `formatAsTimeSeries` (lines 207–220):
each surviving entry is emitted as a (time, value) point, skipping (dead
branch) entries whose parsed time is NaN. -/
def emitPoints (parse : String → Option Int) (sorted : List (String × JsVal)) :
    List (Int × JsVal) :=
  sorted.filterMap fun kv =>
    let timeValue := parseTimestamp parse kv.1
    if jsIsNaN timeValue then none else some (timeValue, kv.2)

/-- The comparison used by
`.sort(([a], [b]) => this.parseTimestamp(a) - this.parseTimestamp(b))`
(src/datasource_proxy.ts line 206): order entries by parsed timestamp. -/
def byParsedTime (parse : String → Option Int) (a b : String × JsVal) : Prop :=
  parseTimestamp parse a.1 ≤ parseTimestamp parse b.1

instance (parse : String → Option Int) : DecidableRel (byParsedTime parse) :=
  fun _a _b => inferInstanceAs (Decidable (_ ≤ _))

/-- Embeds the data path of `formatAsTimeSeries`
(src/datasource_proxy.ts lines 147–223): select the metric (falling back to
the whole canonical result), filter by the forecast period, sort ascending
by parsed timestamp (ECMA `Array.prototype.sort` with a consistent numeric
comparator is a stable sort, modelled by a stable insertion sort), and emit
(time, value) points. -/
def formatAsTimeSeries (parse : String → Option Int) (dayStart dayEnd : Nat → Int)
    (allData : JsVal) (metric period : String) : List (Int × JsVal) :=
  let selectedData := selectData allData metric
  let filtered := (entriesOf selectedData).filter fun kv =>
    timeFilterB parse dayStart dayEnd period kv.1
  let sorted := filtered.insertionSort (byParsedTime parse)
  emitPoints parse sorted

/-- A cache entry `{ data, timestamp }` of the private `cache` map
(src/datasource_proxy.ts line 17). -/
structure CacheEntry where
  data : JsVal
  timestamp : Int

/-- The two process-lifetime maps of the `DataSource` class:
`cache : Map<string, {data, timestamp}>` and `lastApiCall : Map<string, number>`
(src/datasource_proxy.ts lines 17, 20), as association lists. -/
structure GateState where
  cache : List (String × CacheEntry)
  lastApiCall : List (String × Int)

/-- JS `Map.prototype.set`: replace the value at an existing key in place,
else append a new entry. -/
def mapSet (m : List (String × α)) (k : String) (v : α) : List (String × α) :=
  match m with
  | [] => [(k, v)]
  | (k1, v1) :: rest => if k1 = k then (k, v) :: rest else (k1, v1) :: mapSet rest k v

/-- `CACHE_TTL = 30 * 60 * 1000` (line 18). -/
def CACHE_TTL : Int := 30 * 60 * 1000

/-- `MIN_CACHE_TTL = 10 * 60 * 1000` (line 19). -/
def MIN_CACHE_TTL : Int := 10 * 60 * 1000

/-- Embeds `getEffectiveCacheTTL` (src/datasource_proxy.ts lines 270–288). -/
def getEffectiveCacheTTL (provider : String) (metric : String) : Int :=
  if provider == "solcast" then
    CACHE_TTL
  else if metric == "watt_hours_day" then
    CACHE_TTL
  else
    max MIN_CACHE_TTL (CACHE_TTL / 3)

/-- Embeds `const minIntervalBetweenCalls = provider === 'solcast'
? 30 * 60 * 1000 : 5 * 60 * 1000;` (line 112). -/
def minIntervalBetweenCalls (provider : String) : Int :=
  if provider == "solcast" then 30 * 60 * 1000 else 5 * 60 * 1000

/-- Outcome of one pass through the cache/rate-gate core of `doRequest`:
the canonical result (or the propagated fetch error), the state of the two
maps afterwards, and whether the provider fetcher was invoked. -/
structure RequestOutcome where
  result : Except String JsVal
  state : GateState
  fetched : Bool

/-- Embeds the fetch branch of `doRequest` (src/datasource_proxy.ts
lines 119–136 and the rethrowing catch at lines 141–144): the fetcher is
invoked; on success the rate-gate timestamp is recorded and the result is
cached, on failure the error propagates with both maps untouched.
`fetchResult` stands for the awaited outcome of the provider fetcher. -/
def attemptFetch (now : Int) (provider cacheKey : String)
    (fetchResult : Except String JsVal) (st : GateState) : RequestOutcome :=
  match fetchResult with
  | .ok data =>
      { result := .ok data
        state := { cache := mapSet st.cache cacheKey { data := data, timestamp := now }
                   lastApiCall := mapSet st.lastApiCall provider now }
        fetched := true }
  | .error e => { result := .error e, state := st, fetched := true }

/-- Embeds the cache / rate-gate core of `doRequest`
(src/datasource_proxy.ts lines 100–137): a fresh cache hit is returned
directly; otherwise, within `minIntervalBetweenCalls` of the last recorded
API call and with a (possibly stale) entry present, the stale entry is
returned; otherwise the fetcher runs (`attemptFetch`).  The absent-entry
case has `cacheAge = Infinity`, so it always reaches the fetch decision,
where the `&& cached` conjunct fails. -/
def doRequestCore (now : Int) (provider metric cacheKey : String)
    (fetchResult : Except String JsVal) (st : GateState) : RequestOutcome :=
  match st.cache.lookup cacheKey with
  | some cached =>
      if now - cached.timestamp < getEffectiveCacheTTL provider metric then
        { result := .ok cached.data, state := st, fetched := false }
      else if now - ((st.lastApiCall.lookup provider).getD 0) < minIntervalBetweenCalls provider then
        { result := .ok cached.data, state := st, fetched := false }
      else
        attemptFetch now provider cacheKey fetchResult st
  | none =>
      attemptFetch now provider cacheKey fetchResult st

/-- One entry of the alt provider's `forecasts` array, with the fields the
adapter reads (src/datasource_proxy.ts lines 607–612).  `pv_estimate` is a
kW reading, kept exact as a rational. -/
structure SolcastForecast where
  period_end : String
  pv_estimate : ℚ

/-- JS `Math.round`: round half toward positive infinity. -/
def jsMathRound (q : ℚ) : Int := ⌊q + 1 / 2⌋

/-- Embeds the conversion loop of `fetchSolcastData`
(src/datasource_proxy.ts lines 602–612): each forecast entry is stored in
the `watts` object under the stringified epoch-second timestamp
`Math.floor(periodEnd.getTime() / 1000) - 1800`, with value
`Math.round(pv_estimate * 1000)`.  `parseDateMs` abstracts the host
`new Date(s).getTime()` in milliseconds. -/
def processSolcastForecasts (parseDateMs : String → Int)
    (forecasts : List SolcastForecast) : List (String × Int) :=
  forecasts.foldl
    (fun acc f =>
      let watts := jsMathRound (f.pv_estimate * 1000)
      let timestamp := (parseDateMs f.period_end).fdiv 1000 - 1800
      mapSet acc (toString timestamp) watts)
    []

/-- The numeric fields of a query using custom (inline) location parameters,
`none` modelling an undefined field (src/types, consumed at
src/datasource_proxy.ts lines 76–85). -/
structure CustomQueryParams where
  latitude : Option ℚ
  longitude : Option ℚ
  declination : Option ℚ
  azimuth : Option ℚ
  kwp : Option ℚ

/-- JS `x || d` on a number-or-undefined `x`: `undefined` and the falsy
number 0 both yield the default. -/
def jsOrNum (v : Option ℚ) (d : ℚ) : ℚ :=
  match v with
  | some x => if x = 0 then d else x
  | none => d

/-- The resolved parameter tuple for one query. -/
structure ResolvedLocation where
  latitude : ℚ
  longitude : ℚ
  declination : ℚ
  azimuth : ℚ
  kwp : ℚ

/-- Embeds the custom-location branch of `doRequest`
(src/datasource_proxy.ts lines 76–85): `latitude = query.latitude || 51.13`
and so on for each field. -/
def resolveCustomLocation (q : CustomQueryParams) : ResolvedLocation :=
  { latitude := jsOrNum q.latitude 51.13
    longitude := jsOrNum q.longitude 10.42
    declination := jsOrNum q.declination 30
    azimuth := jsOrNum q.azimuth 180
    kwp := jsOrNum q.kwp 5.0 }

/-- Embeds the aggregation of `query` (src/datasource_proxy.ts lines 36–48):
`const data = await Promise.all(promises); return { data };`.  Given the
per-target outcomes of `doRequest`, `Promise.all` resolves with the list of
frames only when every target resolved, and rejects with the failing
target's reason as soon as any target rejects. -/
def queryPromiseAll : List (Except String JsVal) → Except String (List JsVal)
  | [] => .ok []
  | .error e :: _ => .error e
  | .ok a :: rest =>
      match queryPromiseAll rest with
      | .ok l => .ok (a :: l)
      | .error e => .error e

/-! ## Helper lemmas -/

/-- Looking up the key just stored by `mapSet` returns the stored value. -/
theorem lookup_mapSet_self (m : List (String × α)) (k : String) (v : α) :
    (mapSet m k v).lookup k = some v := by
  induction m with
  | nil => simp [mapSet]
  | cons hd tl ih =>
    obtain ⟨k1, v1⟩ := hd
    by_cases h : k1 = k
    · simp [mapSet, h]
    · have hk : (k == k1) = false := beq_eq_false_iff_ne.mpr (Ne.symm h)
      simp [mapSet, h, ih, List.lookup, hk]

/-- If `doRequestCore` invoked the fetcher, it behaved as `attemptFetch`. -/
theorem doRequestCore_fetched_eq (now : Int) (provider metric cacheKey : String)
    (fr : Except String JsVal) (st : GateState)
    (h : (doRequestCore now provider metric cacheKey fr st).fetched = true) :
    doRequestCore now provider metric cacheKey fr st =
      attemptFetch now provider cacheKey fr st := by
  unfold doRequestCore at h ⊢
  cases hc : st.cache.lookup cacheKey with
  | none => rfl
  | some c =>
    rw [hc] at h
    dsimp only at h ⊢
    by_cases h1 : now - c.timestamp < getEffectiveCacheTTL provider metric
    · rw [if_pos h1] at h; simp at h
    · rw [if_neg h1] at h ⊢
      by_cases h2 : now - ((st.lastApiCall.lookup provider).getD 0) <
          minIntervalBetweenCalls provider
      · rw [if_pos h2] at h; simp at h
      · rw [if_neg h2]

/-- Every run of `doRequestCore` either leaves the state untouched (the two
cache-return branches) or behaves as `attemptFetch`. -/
theorem doRequestCore_state_eq_or (now : Int) (provider metric cacheKey : String)
    (fr : Except String JsVal) (st : GateState) :
    (doRequestCore now provider metric cacheKey fr st).state = st ∨
    doRequestCore now provider metric cacheKey fr st =
      attemptFetch now provider cacheKey fr st := by
  unfold doRequestCore
  cases st.cache.lookup cacheKey with
  | none => exact Or.inr rfl
  | some c =>
    dsimp only
    by_cases h1 : now - c.timestamp < getEffectiveCacheTTL provider metric
    · rw [if_pos h1]; exact Or.inl rfl
    · rw [if_neg h1]
      by_cases h2 : now - ((st.lastApiCall.lookup provider).getD 0) <
          minIntervalBetweenCalls provider
      · rw [if_pos h2]; exact Or.inl rfl
      · rw [if_neg h2]; exact Or.inr rfl

/-- The NaN-skipping branch of the emission loop is dead, so emission is a
plain map from sorted entries to (time, value) points. -/
theorem emitPoints_eq_map (parse : String → Option Int) (l : List (String × JsVal)) :
    emitPoints parse l = l.map fun kv => (parseTimestamp parse kv.1, kv.2) := by
  induction l with
  | nil => rfl
  | cons hd tl ih => simp [emitPoints, jsIsNaN, List.filterMap_cons] at ih ⊢; exact ih

/-- Membership in the assembled series: a point (t, v) is emitted exactly
when some entry of the selected data has parsed time t, value v, and passes
the period filter. -/
theorem mem_formatAsTimeSeries (parse : String → Option Int) (dayStart dayEnd : Nat → Int)
    (allData : JsVal) (metric period : String) (t : Int) (v : JsVal) :
    (t, v) ∈ formatAsTimeSeries parse dayStart dayEnd allData metric period ↔
      ∃ k, (k, v) ∈ entriesOf (selectData allData metric) ∧ parseTimestamp parse k = t ∧
        timeFilterB parse dayStart dayEnd period k = true := by
  unfold formatAsTimeSeries
  rw [emitPoints_eq_map]
  simp only [List.mem_map, List.mem_insertionSort, List.mem_filter, Prod.mk.injEq]
  constructor
  · rintro ⟨⟨k, v'⟩, ⟨hmem, hfil⟩, ht, hv⟩
    subst ht; subst hv
    exact ⟨k, hmem, rfl, hfil⟩
  · rintro ⟨k, hmem, ht, hfil⟩
    exact ⟨(k, v), ⟨hmem, hfil⟩, ht, rfl⟩

/-! ## Claim theorems -/

/-- Claim C1: for every cache key, if a successful fetch stored a canonical
result at time T0, then any call with the same key at a time T with
T − T0 < effectiveTTL(provider, metric) returns that stored canonical
result unchanged and does not invoke the fetcher; effectiveTTL is 30 min
for the solcast provider, 30 min for the primary provider's
watt_hours_day metric, and 10 min for every other primary-provider
metric. -/
theorem cache_hit_within_ttl (T0 T : Int) (provider metric cacheKey : String)
    (d : JsVal) (fr2 : Except String JsVal) (st0 st1 : GateState)
    (hfetched : (doRequestCore T0 provider metric cacheKey (.ok d) st0).fetched = true)
    (hst1 : (doRequestCore T0 provider metric cacheKey (.ok d) st0).state = st1)
    (hfresh : T - T0 < getEffectiveCacheTTL provider metric) :
    doRequestCore T provider metric cacheKey fr2 st1 =
      { result := .ok d, state := st1, fetched := false } ∧
    getEffectiveCacheTTL "solcast" metric = 30 * 60 * 1000 ∧
    getEffectiveCacheTTL provider "watt_hours_day" = 30 * 60 * 1000 ∧
    (provider ≠ "solcast" → metric ≠ "watt_hours_day" →
      getEffectiveCacheTTL provider metric = 10 * 60 * 1000) := by
  have heq := doRequestCore_fetched_eq T0 provider metric cacheKey (.ok d) st0 hfetched
  rw [heq] at hst1
  subst hst1
  refine ⟨?_, by simp [getEffectiveCacheTTL, CACHE_TTL], ?_, fun hp hm => ?_⟩
  · dsimp only [attemptFetch]
    unfold doRequestCore
    rw [lookup_mapSet_self]
    dsimp only
    rw [if_pos hfresh]
  · unfold getEffectiveCacheTTL
    by_cases hp : provider = "solcast" <;> simp [hp, CACHE_TTL]
  · unfold getEffectiveCacheTTL
    simp [hp, hm, CACHE_TTL, MIN_CACHE_TTL]

/-- Concrete instance of `cache_hit_within_ttl`: a fetch at time 0 stores
the result; a call at time 100 ms returns it without fetching. -/
theorem cache_hit_within_ttl_witness :
    doRequestCore 100 "forecast.solar" "watts" "k" (.error "boom")
        { cache := [("k", { data := JsVal.num 7, timestamp := 0 })],
          lastApiCall := [("forecast.solar", 0)] } =
      { result := .ok (JsVal.num 7),
        state := { cache := [("k", { data := JsVal.num 7, timestamp := 0 })],
                   lastApiCall := [("forecast.solar", 0)] },
        fetched := false } :=
  (cache_hit_within_ttl 0 100 "forecast.solar" "watts" "k" (JsVal.num 7) (.error "boom")
    ⟨[], []⟩
    ⟨[("k", ⟨JsVal.num 7, 0⟩)], [("forecast.solar", 0)]⟩
    rfl rfl (by decide)).1

/-- Claim C2: for every provider and cache key, if a cache entry exists
(even one older than effectiveTTL) and the time since the last recorded
successful call to that provider is below the provider's minimum interval
(30 min solcast, 5 min primary), the request returns the existing cache
entry and no provider fetch is performed. -/
theorem stale_cache_rate_gate (now lastT : Int) (provider metric cacheKey : String)
    (entry : CacheEntry) (fr : Except String JsVal) (st : GateState)
    (hc : st.cache.lookup cacheKey = some entry)
    (hl : st.lastApiCall.lookup provider = some lastT)
    (hmin : now - lastT < minIntervalBetweenCalls provider) :
    doRequestCore now provider metric cacheKey fr st =
      { result := .ok entry.data, state := st, fetched := false } ∧
    minIntervalBetweenCalls "solcast" = 30 * 60 * 1000 ∧
    (provider ≠ "solcast" → minIntervalBetweenCalls provider = 5 * 60 * 1000) := by
  refine ⟨?_, by simp [minIntervalBetweenCalls],
    fun hp => by simp [minIntervalBetweenCalls, hp]⟩
  unfold doRequestCore
  rw [hc]
  dsimp only
  by_cases h1 : now - entry.timestamp < getEffectiveCacheTTL provider metric
  · rw [if_pos h1]
  · rw [if_neg h1, hl]
    dsimp only [Option.getD]
    rw [if_pos hmin]

/-- Concrete instance of `stale_cache_rate_gate`: a long-expired entry is
still returned without a fetch when the rate gate is closed. -/
theorem stale_cache_rate_gate_witness :
    doRequestCore 100000 "forecast.solar" "watts" "k" (.error "x")
        { cache := [("k", { data := JsVal.num 7, timestamp := -1000000000 })],
          lastApiCall := [("forecast.solar", 0)] } =
      { result := .ok (JsVal.num 7),
        state := { cache := [("k", { data := JsVal.num 7, timestamp := -1000000000 })],
                   lastApiCall := [("forecast.solar", 0)] },
        fetched := false } :=
  (stale_cache_rate_gate 100000 0 "forecast.solar" "watts" "k"
    { data := JsVal.num 7, timestamp := -1000000000 } (.error "x")
    ⟨[("k", ⟨JsVal.num 7, -1000000000⟩)], [("forecast.solar", 0)]⟩
    rfl rfl (by decide)).1

/-- Claim C3: for every query that reaches the fetch path, a fetcher
failure propagates to the caller with both the cache map and the rate-gate
timestamp map unmodified; the state is modified only by a successful fetch,
which records the timestamp and caches the result. -/
theorem fetch_failure_preserves_state (now : Int) (provider metric cacheKey e : String)
    (st : GateState)
    (h : (doRequestCore now provider metric cacheKey (.error e) st).fetched = true) :
    doRequestCore now provider metric cacheKey (.error e) st =
      { result := .error e, state := st, fetched := true } ∧
    (∀ fr : Except String JsVal,
      (doRequestCore now provider metric cacheKey fr st).state ≠ st →
      ∃ d, fr = .ok d ∧
        (doRequestCore now provider metric cacheKey fr st).state =
          { cache := mapSet st.cache cacheKey { data := d, timestamp := now },
            lastApiCall := mapSet st.lastApiCall provider now }) := by
  constructor
  · rw [doRequestCore_fetched_eq now provider metric cacheKey (.error e) st h]; rfl
  · intro fr hne
    rcases doRequestCore_state_eq_or now provider metric cacheKey fr st with hs | hs
    · exact absurd hs hne
    · cases fr with
      | error e2 => exact absurd (by rw [hs]; rfl) hne
      | ok d => exact ⟨d, rfl, by rw [hs]; rfl⟩

/-- Concrete instance of `fetch_failure_preserves_state`: an empty-cache
fetch that fails leaves both maps empty and propagates the error. -/
theorem fetch_failure_preserves_state_witness :
    doRequestCore 5 "solcast" "watts" "k" (.error "boom")
        { cache := [], lastApiCall := [] } =
      { result := .error "boom", state := { cache := [], lastApiCall := [] },
        fetched := true } :=
  (fetch_failure_preserves_state 5 "solcast" "watts" "k" "boom" ⟨[], []⟩ rfl).1

/-- Claim C4 (amended): the batch entry point awaits `Promise.all`, which
is fail-fast: if any target's resolution rejects, the whole batch rejects
and no sibling frames are reported; only when every target resolves does
the batch contain one frame per target. -/
theorem promiseAll_fail_fast (rs : List (Except String JsVal)) :
    ((∃ e, Except.error e ∈ rs) → ∀ l, queryPromiseAll rs ≠ Except.ok l) ∧
    ((∀ r ∈ rs, ∃ a, r = Except.ok a) →
      ∃ l, queryPromiseAll rs = Except.ok l ∧ l.length = rs.length) := by
  induction rs with
  | nil =>
    constructor
    · rintro ⟨e, he⟩; cases he
    · intro _; exact ⟨[], rfl, rfl⟩
  | cons hd tl ih =>
    constructor
    · rintro ⟨e, he⟩ l hok
      cases hd with
      | error e2 => exact Except.noConfusion hok
      | ok a =>
        have htl : ∃ e, Except.error e ∈ tl := by
          rcases List.mem_cons.mp he with h | h
          · exact absurd h (by simp)
          · exact ⟨e, h⟩
        cases hq : queryPromiseAll tl with
        | error e3 =>
          simp only [queryPromiseAll, hq] at hok
          exact Except.noConfusion hok
        | ok l2 => exact ih.1 htl l2 hq
    · intro hall
      cases hd with
      | error e2 =>
        obtain ⟨a, ha⟩ := hall _ (List.mem_cons_self _ _)
        exact Except.noConfusion ha
      | ok a =>
        obtain ⟨l2, hq, hlen⟩ := ih.2 fun r hr => hall r (List.mem_cons_of_mem _ hr)
        exact ⟨a :: l2, by simp only [queryPromiseAll, hq], by simp [hlen]⟩

/-- Concrete instance of `promiseAll_fail_fast`: one failing target means
the batch does not report the sibling's successful frame. -/
theorem promiseAll_fail_fast_witness :
    queryPromiseAll [Except.ok (JsVal.num 1), Except.error "boom"] ≠
      Except.ok [JsVal.num 1] :=
  (promiseAll_fail_fast [Except.ok (JsVal.num 1), Except.error "boom"]).1
    ⟨"boom", by simp⟩ [JsVal.num 1]

/-- Refutes claim C4 as stated: with one successful and one failing target,
the batch result is the bare rejection — it reports no data frame for the
unaffected sibling target, so failure is not at per-target granularity. -/
theorem promiseAll_fail_fast_counterexample :
    queryPromiseAll [Except.ok (JsVal.num 1), Except.error "boom"] =
      Except.error "boom" ∧
    (queryPromiseAll [Except.ok (JsVal.num 1), Except.error "boom"]).isOk = false :=
  ⟨rfl, rfl⟩

/-- Claim C5: for any canonical result, a point is emitted for a
non-"all" forecast period exactly when its normalized timestamp lies in
the local-wall-clock day window of today + the period's offset
(today = 0 … day+6 = 6); for period "all" every point of the selected
metric is emitted regardless of its day. -/
theorem period_day_filter (parse : String → Option Int) (dayStart dayEnd : Nat → Int)
    (allData : JsVal) (metric period : String) (t : Int) (v : JsVal) :
    (period ≠ "all" →
      ((t, v) ∈ formatAsTimeSeries parse dayStart dayEnd allData metric period ↔
        ∃ k, (k, v) ∈ entriesOf (selectData allData metric) ∧
          parseTimestamp parse k = t ∧
          dayStart (periodOffset period) ≤ t ∧ t ≤ dayEnd (periodOffset period))) ∧
    (period = "all" →
      ((t, v) ∈ formatAsTimeSeries parse dayStart dayEnd allData metric period ↔
        ∃ k, (k, v) ∈ entriesOf (selectData allData metric) ∧ parseTimestamp parse k = t)) ∧
    periodOffset "today" = 0 ∧ periodOffset "tomorrow" = 1 ∧ periodOffset "day+2" = 2 ∧
    periodOffset "day+3" = 3 ∧ periodOffset "day+4" = 4 ∧ periodOffset "day+5" = 5 ∧
    periodOffset "day+6" = 6 := by
  refine ⟨fun hne => ?_, fun hall => ?_, rfl, rfl, rfl, rfl, rfl, rfl, rfl⟩
  · rw [mem_formatAsTimeSeries]
    constructor
    · rintro ⟨k, hmem, ht, hfil⟩
      simp only [timeFilterB, beq_iff_eq, if_neg hne, Bool.and_eq_true,
        decide_eq_true_eq] at hfil
      exact ⟨k, hmem, ht, ht ▸ hfil.1, ht ▸ hfil.2⟩
    · rintro ⟨k, hmem, ht, h1, h2⟩
      refine ⟨k, hmem, ht, ?_⟩
      simp only [timeFilterB, beq_iff_eq, if_neg hne, Bool.and_eq_true, decide_eq_true_eq]
      exact ⟨ht ▸ h1, ht ▸ h2⟩
  · rw [mem_formatAsTimeSeries]
    constructor
    · rintro ⟨k, hmem, ht, _⟩
      exact ⟨k, hmem, ht⟩
    · rintro ⟨k, hmem, ht⟩
      refine ⟨k, hmem, ht, ?_⟩
      simp [timeFilterB, hall]

/-- Concrete instance of `period_day_filter`: a point parsed at time 100
inside the (abstract) local window [50, 200] of tomorrow is emitted for
period "tomorrow". -/
theorem period_day_filter_witness :
    ((100:Int), JsVal.num 5) ∈ formatAsTimeSeries
      (fun s => if s = "a" then some 100 else none)
      (fun n => if n = 1 then 50 else 1000) (fun n => if n = 1 then 200 else -5)
      (JsVal.obj [("a-metric", JsVal.obj [("a", JsVal.num 5)])]) "a-metric" "tomorrow" := by
  have h := period_day_filter (fun s => if s = "a" then some 100 else none)
    (fun n => if n = 1 then 50 else 1000) (fun n => if n = 1 then 200 else -5)
    (JsVal.obj [("a-metric", JsVal.obj [("a", JsVal.num 5)])]) "a-metric" "tomorrow"
    100 (JsVal.num 5)
  exact (h.1 (by decide)).mpr ⟨"a", List.Mem.head _, rfl, by decide, by decide⟩

/-- Claim C6: for every input metric map, in any order, the emitted series
is sorted: every pair of consecutive points has nondecreasing time. -/
theorem series_sorted_by_time (parse : String → Option Int) (dayStart dayEnd : Nat → Int)
    (allData : JsVal) (metric period : String) :
    List.Chain' (fun p q : Int × JsVal => p.1 ≤ q.1)
      (formatAsTimeSeries parse dayStart dayEnd allData metric period) := by
  unfold formatAsTimeSeries
  rw [emitPoints_eq_map]
  apply List.Pairwise.chain'
  rw [List.pairwise_map]
  haveI : IsTotal (String × JsVal) (byParsedTime parse) := ⟨fun a b => Int.le_total _ _⟩
  haveI : IsTrans (String × JsVal) (byParsedTime parse) :=
    ⟨fun a b c hab hbc => le_trans hab hbc⟩
  exact List.sorted_insertionSort (byParsedTime parse) _

/-- Claim C7, evaluated at the failing input: the normalizer does return
the sentinel 0 for an unparseable timestamp, but the assembler's
NaN-skipping guard never fires (`jsIsNaN` of the sentinel is false), so the
point with an unparseable timestamp IS emitted, at time 0, for period
"all" — contradicting the claim that it never appears in the output. -/
theorem invalid_timestamp_point_emitted :
    parseTimestamp (fun _ => none) "not-a-date" = 0 ∧
    jsIsNaN (parseTimestamp (fun _ => none) "not-a-date") = false ∧
    formatAsTimeSeries (fun _ => none) (fun _ => 0) (fun _ => 0)
        (JsVal.obj [("watts", JsVal.obj [("not-a-date", JsVal.num 5)])]) "watts" "all" =
      [(0, JsVal.num 5)] := ⟨rfl, rfl, rfl⟩

/-- Claim C8 (amended): each numeric field that is undefined is replaced by
its documented fallback (51.13, 10.42, 30, 180, 5.0), but a field supplied
as zero is falsy under the `||` defaulting and is ALSO replaced by the
fallback; only nonzero supplied values are kept. -/
theorem custom_location_defaults (q : CustomQueryParams) :
    ((q.latitude = none ∨ q.latitude = some 0) → (resolveCustomLocation q).latitude = 51.13) ∧
    (∀ x, q.latitude = some x → x ≠ 0 → (resolveCustomLocation q).latitude = x) ∧
    ((q.longitude = none ∨ q.longitude = some 0) → (resolveCustomLocation q).longitude = 10.42) ∧
    (∀ x, q.longitude = some x → x ≠ 0 → (resolveCustomLocation q).longitude = x) ∧
    ((q.declination = none ∨ q.declination = some 0) → (resolveCustomLocation q).declination = 30) ∧
    (∀ x, q.declination = some x → x ≠ 0 → (resolveCustomLocation q).declination = x) ∧
    ((q.azimuth = none ∨ q.azimuth = some 0) → (resolveCustomLocation q).azimuth = 180) ∧
    (∀ x, q.azimuth = some x → x ≠ 0 → (resolveCustomLocation q).azimuth = x) ∧
    ((q.kwp = none ∨ q.kwp = some 0) → (resolveCustomLocation q).kwp = 5.0) ∧
    (∀ x, q.kwp = some x → x ≠ 0 → (resolveCustomLocation q).kwp = x) := by
  have key : ∀ (v : Option ℚ) (d : ℚ),
      ((v = none ∨ v = some 0) → jsOrNum v d = d) ∧
      (∀ x, v = some x → x ≠ 0 → jsOrNum v d = x) := by
    intro v d
    constructor
    · rintro (rfl | rfl) <;> simp [jsOrNum]
    · rintro x rfl hx
      simp [jsOrNum, hx]
  exact ⟨(key _ _).1, (key _ _).2, (key _ _).1, (key _ _).2, (key _ _).1, (key _ _).2,
    (key _ _).1, (key _ _).2, (key _ _).1, (key _ _).2⟩

/-- Concrete instance of `custom_location_defaults`: an undefined latitude
is defaulted, a nonzero declination of 7 is kept. -/
theorem custom_location_defaults_witness :
    (resolveCustomLocation ⟨none, some 0, some 7, some 0, none⟩).latitude = 51.13 ∧
    (resolveCustomLocation ⟨none, some 0, some 7, some 0, none⟩).declination = 7 := by
  have h := custom_location_defaults ⟨none, some 0, some 7, some 0, none⟩
  exact ⟨h.1 (Or.inl rfl), h.2.2.2.2.2.1 7 rfl (by norm_num)⟩

/-- Refutes claim C8 as stated: a query supplying azimuth = 0 (due north)
is resolved to the fallback 180, so a deliberately supplied zero is not
kept. -/
theorem custom_location_defaults_counterexample :
    (resolveCustomLocation
        { latitude := some 50, longitude := some 10, declination := some 30,
          azimuth := some 0, kwp := some 5 }).azimuth = 180 ∧
    (resolveCustomLocation
        { latitude := some 50, longitude := some 10, declination := some 30,
          azimuth := some 0, kwp := some 5 }).azimuth ≠ 0 := by
  constructor <;> norm_num [resolveCustomLocation, jsOrNum]

/-- Claim C9: the alt-provider adapter stores, for each forecast entry, a
watts value of `Math.round(pv_estimate * 1000)` under the epoch-second
timestamp of period_end minus 30 minutes; in particular the entry
period_end = 2025-07-06T11:30:00Z (epoch ms 1751801400000),
pv_estimate = 0.5 yields the point ("1751799600", 500), where epoch second
1751799600 is 2025-07-06T11:00:00Z. -/
theorem solcast_adapter_conversion (parse : String → Int)
    (hp : parse "2025-07-06T11:30:00Z" = 1751801400000) :
    (∀ f : SolcastForecast, processSolcastForecasts parse [f] =
      [(toString ((parse f.period_end - 30 * 60 * 1000).fdiv 1000),
        jsMathRound (f.pv_estimate * 1000))]) ∧
    processSolcastForecasts parse
        [{ period_end := "2025-07-06T11:30:00Z", pv_estimate := 1/2 }] =
      [("1751799600", 500)] ∧
    (1751799600 : Int) * 1000 = 1751801400000 - 30 * 60 * 1000 := by
  have hdiv : ∀ x : Int, (x - 1800000).fdiv 1000 = x.fdiv 1000 - 1800 := by
    intro x
    rw [Int.fdiv_eq_ediv _ (by norm_num), Int.fdiv_eq_ediv _ (by norm_num)]
    have hx : x - 1800000 = x + -1800 * 1000 := by ring
    rw [hx, Int.add_mul_ediv_right _ _ (by norm_num : (1000:ℤ) ≠ 0)]
    ring
  refine ⟨fun f => ?_, ?_, by norm_num⟩
  · simp [processSolcastForecasts, mapSet, hdiv]
  · have h1 : jsMathRound ((1:ℚ)/2 * 1000) = 500 := by norm_num [jsMathRound]
    have h2 : Int.fdiv 1751801400000 1000 - 1800 = 1751799600 := by decide
    simp only [processSolcastForecasts, List.foldl, hp, h1, h2]
    decide

/-- Concrete instance of `solcast_adapter_conversion` with a host date
parser mapping the scenario's period_end string to its epoch instant. -/
theorem solcast_adapter_conversion_witness :
    processSolcastForecasts (fun _ => 1751801400000)
        [{ period_end := "2025-07-06T11:30:00Z", pv_estimate := 1/2 }] =
      [("1751799600", 500)] :=
  (solcast_adapter_conversion (fun _ => 1751801400000) rfl).2.1

/-- Claim C10 (amended): when the canonical result has no entry for the
requested metric, the assembler does not select an empty map — the
selection falls back to the entire canonical result; the output has zero
points (and no error) only when that canonical result itself has no
entries. -/
theorem missing_metric_fallback (parse : String → Option Int) (dayStart dayEnd : Nat → Int)
    (allData : JsVal) (metric period : String)
    (habsent : objGet allData metric = none) :
    selectData allData metric = allData ∧
    (entriesOf allData = [] →
      formatAsTimeSeries parse dayStart dayEnd allData metric period = []) := by
  have hsel : selectData allData metric = allData := by
    unfold selectData; rw [habsent]
  refine ⟨hsel, fun hemp => ?_⟩
  unfold formatAsTimeSeries
  rw [hsel]
  dsimp only
  rw [hemp]
  rfl

/-- Concrete instance of `missing_metric_fallback`: an empty canonical
result with a missing metric yields an empty series without error. -/
theorem missing_metric_fallback_witness :
    selectData (JsVal.obj []) "watts" = JsVal.obj [] ∧
    formatAsTimeSeries (fun _ => none) (fun _ => 0) (fun _ => 0)
        (JsVal.obj []) "watts" "all" = [] :=
  ⟨(missing_metric_fallback (fun _ => none) (fun _ => 0) (fun _ => 0)
      (JsVal.obj []) "watts" "all" rfl).1,
   (missing_metric_fallback (fun _ => none) (fun _ => 0) (fun _ => 0)
      (JsVal.obj []) "watts" "all" rfl).2 rfl⟩

/-- Refutes claim C10 as stated: a nonempty canonical result that lacks the
requested metric does not yield zero points — the whole-result fallback
emits the metric-name entry as a point (its name parses to the sentinel
time 0 and its value is the inner series object). -/
theorem missing_metric_fallback_counterexample :
    objGet (JsVal.obj [("watts", JsVal.obj [("2025-07-06 10:00:00", JsVal.num 500)])])
        "watt_hours" = none ∧
    formatAsTimeSeries (fun _ => none) (fun _ => 0) (fun _ => 0)
        (JsVal.obj [("watts", JsVal.obj [("2025-07-06 10:00:00", JsVal.num 500)])])
        "watt_hours" "all" =
      [(0, JsVal.obj [("2025-07-06 10:00:00", JsVal.num 500)])] ∧
    formatAsTimeSeries (fun _ => none) (fun _ => 0) (fun _ => 0)
        (JsVal.obj [("watts", JsVal.obj [("2025-07-06 10:00:00", JsVal.num 500)])])
        "watt_hours" "all" ≠ [] :=
  ⟨rfl, rfl, fun h => List.noConfusion h⟩

end SolarProxy
